import Mathlib

/-
Verification of `clustering_launcher.cpp` (McKelvey-Engineering-CSE/clustered_scheduling).

The launcher is a single `main` function.  We embed it shallowly:

* File contents are modelled as `List String` (the lines that successive
  `std::getline` calls return).
* `std::istringstream >> std::string` extraction is modelled by whitespace
  tokenization (`tokenize`): skip whitespace, read a maximal non-whitespace run.
* `std::istringstream >> unsigned` extraction is modelled by `parseUnsigned`,
  following C++11 `num_get` semantics for `unsigned int` in the "C" locale:
  skip whitespace, optional sign, decimal digits, conversion as by `strtoull`
  (range error sets failbit), then a range check against `unsigned int`.
  Overflow bounds 2^64 (unsigned long long) and 2^32 (unsigned int) are explicit.
* Process-level effects (fork / execv / barrier creation) are resolved by
  oracles: `barrierOk : Bool` for `init_single_use_barrier`, and
  `fork : Nat -> ForkOutcome` giving the outcome of the fork/execv pair for each
  task index.  `kill(0, SIGTERM)` is recorded as a `broadcast` flag; by POSIX
  semantics `kill(0, sig)` delivers the signal to every member of the caller's
  process group, and every child forked by the launcher inherits that group,
  so a broadcast reaches exactly the launcher plus all tasks created so far
  (`LoopResult.signaled` makes this reading explicit).
-/

/-- Exit codes, in the order of `enum rt_gomp_clustering_launcher_error_codes`. -/
inductive ErrorCode
  | success
  | fileOpenError
  | fileParseError
  | unschedulableError
  | forkExecvError
  | barrierInitError
  | argumentError
deriving DecidableEq, Repr

/-- `const unsigned num_timing_params = 11`. -/
def num_timing_params : Nat := 11

/-- `const unsigned num_skipped_timing_params = 4`. -/
def num_skipped_timing_params : Nat := 4

/-- `const unsigned num_partition_params = 3`. -/
def num_partition_params : Nat := 3

/-- `const std::string barrier_name = "RT_GOMP_CLUSTERING_BARRIER"`. -/
def barrier_name : String := "RT_GOMP_CLUSTERING_BARRIER"

/-- Whitespace per `isspace` in the "C" locale: space, \t, \n, \v, \f, \r.
These are the characters that delimit `istream >> std::string` extraction. -/
def isCSpace (c : Char) : Bool :=
  c = ' ' || c = '\t' || c = '\n' || c = Char.ofNat 11 || c = Char.ofNat 12 || c = '\r'

/-- Accumulating tokenizer over the character list: returns the maximal
non-whitespace runs, in order.  `acc` holds the current run, reversed. -/
def tokenizeAux : List Char → List Char → List (List Char)
  | [], acc => if acc.isEmpty then [] else [acc.reverse]
  | c :: cs, acc =>
    if isCSpace c then
      if acc.isEmpty then tokenizeAux cs []
      else acc.reverse :: tokenizeAux cs []
    else tokenizeAux cs (c :: acc)

/-- The sequence of strings produced by repeatedly applying
`istringstream >> std::string` to a line until extraction fails. -/
def tokenize (s : String) : List String :=
  (tokenizeAux s.toList []).map (fun cs => String.mk cs)

/-- Value of a run of decimal digit characters. -/
def digitsToNat (ds : List Char) : Nat :=
  ds.foldl (fun a c => 10 * a + (c.toNat - 48)) 0

/-- Model of `istringstream >> (unsigned int)` on a whole line (C++11 num_get,
"C" locale): skip whitespace, optional `+`/`-`, a nonempty run of decimal
digits (extraction stops at the first non-digit; trailing characters are
ignored because the stream is only read once).  Conversion is as by
`strtoull`: a digit value above `ULLONG_MAX` is a range error (failbit, here
`none`); a `-` sign negates modulo 2^64; a result above `UINT_MAX` is a range
error for the `unsigned int` target (failbit, `none`). -/
def parseUnsigned (s : String) : Option Nat :=
  let cs := s.toList.dropWhile isCSpace
  let signAndRest : Bool × List Char :=
    match cs with
    | '-' :: r => (true, r)
    | '+' :: r => (false, r)
    | _ => (false, cs)
  let ds := signAndRest.2.takeWhile Char.isDigit
  if ds.isEmpty then none
  else
    let v := digitsToNat ds
    if 2 ^ 64 ≤ v then none
    else
      let u := if signAndRest.1 then (2 ^ 64 - v) % 2 ^ 64 else v
      if 2 ^ 32 ≤ u then none
      else some u

/-- The distinct failure exits of the per-task launch loop, one per
`fprintf` + `return` site in the loop body of `main`. -/
inductive TaskError
  | missingLines
  | noProgramName
  | tooFewPartitionParams
  | tooManyPartitionParams
  | tooFewTimingParams
  | tooManyTimingParams
  | forkFailed
  | execFailed
deriving DecidableEq, Repr

/-- The exit code each loop failure returns with, matching the `return`
statements in the loop body: fork/execv failures return
`RT_GOMP_CLUSTERING_LAUNCHER_FORK_EXECV_ERROR`, everything else
`RT_GOMP_CLUSTERING_LAUNCHER_FILE_PARSE_ERROR`. -/
def taskErrorCode : TaskError → ErrorCode
  | .forkFailed => .forkExecvError
  | .execFailed => .forkExecvError
  | _ => .fileParseError

/-- The argument-projection part of the loop body (lines 195-279 of
`clustering_launcher.cpp`): read the program name from the command line
(error if absent), read exactly `num_partition_params` partition tokens
(distinct errors for too few / too many), skip `num_skipped_timing_params`
timing tokens and read the rest up to `num_timing_params` (error if the line
runs short in either phase, error if tokens remain past the 11th), then
assemble `[program, partitions, timing 5..11, barrier name, program,
remaining command-line tokens]`. -/
def projectTask (cmd timing partition : String) : Except TaskError (List String) :=
  match tokenize cmd with
  | [] => .error .noProgramName
  | progName :: cmdArgs =>
    let partToks := tokenize partition
    if partToks.length < num_partition_params then .error .tooFewPartitionParams
    else if num_partition_params < partToks.length then .error .tooManyPartitionParams
    else
      let timeToks := tokenize timing
      if timeToks.length < num_timing_params then .error .tooFewTimingParams
      else if num_timing_params < timeToks.length then .error .tooManyTimingParams
      else .ok (progName :: partToks ++ timeToks.drop num_skipped_timing_params
                  ++ [barrier_name, progName] ++ cmdArgs)

/-- Outcome of the `fork()` / `execv()` pair for one task, resolved by an
oracle: `parentOk` means the fork succeeded and the child's `execv` replaced
its image; `forkFail` means `fork()` returned -1 in the launcher; `execFail`
means the fork succeeded but the child's `execv` returned, upon which the
child (still running launcher code) broadcasts `kill(0, SIGTERM)` — which
tears down the whole process group, launcher included — and exits with the
fork/execv error code. -/
inductive ForkOutcome
  | parentOk
  | forkFail
  | execFail
deriving DecidableEq, Repr

/-- Result of the per-task launch loop: the argument vectors of the tasks
whose processes were created and exec-ed, the failure that ended the loop
early (if any), and whether `kill(0, SIGTERM)` was issued. -/
structure LoopResult where
  launched : List (List String)
  err : Option TaskError
  broadcast : Bool
deriving DecidableEq, Repr

/-- The tasks that receive SIGTERM from a broadcast: `kill(0, SIGTERM)`
signals every member of the caller's process group, and each forked child
inherits the launcher's group, so a broadcast reaches exactly the tasks
created so far (and the launcher itself). -/
def LoopResult.signaled (r : LoopResult) : List (List String) :=
  if r.broadcast then r.launched else []

/-- The `for (unsigned t = 1; t <= num_tasks; ++t)` loop of `main`
(lines 175-319): each iteration reads three lines (command, timing,
partition) — failing with the "Provide three lines" parse error if fewer
remain — projects them into an argument vector, and forks/execs.  Every
failure exit in the loop body performs `kill(0, SIGTERM)` first (modelled by
`broadcast = true`).  `t` is the 1-based task index fed to the fork oracle;
the remaining iteration count drives the recursion. -/
def launchLoop (fork : Nat → ForkOutcome) (t : Nat) : Nat → List String → LoopResult
  | 0, _ => ⟨[], none, false⟩
  | Nat.succ n, taskLines =>
    match taskLines with
    | cmd :: timing :: partition :: rest =>
      match projectTask cmd timing partition with
      | .error e => ⟨[], some e, true⟩
      | .ok argv =>
        match fork t with
        | .forkFail => ⟨[], some .forkFailed, true⟩
        | .execFail => ⟨[], some .execFailed, true⟩
        | .parentOk =>
          let r := launchLoop fork (t + 1) n rest
          ⟨argv :: r.launched, r.err, r.broadcast⟩
    | _ => ⟨[], some .missingLines, true⟩

/-- The line-count validation of lines 109-117:
`num_lines >= 2 && (num_lines - 2) % 3 == 0`. -/
def lineCountOk (numLines : Nat) : Bool :=
  2 ≤ numLines && (numLines - 2) % 3 == 0

/-- The header phase of `main` (lines 109-163): count the lines and check the
count; re-read from the start; parse the schedulability verdict from line 1
(absent or unparsable → parse error; 0 → informational, 1 → warning, both
proceed; anything else → unschedulable error); require line 2 (the core-range
line, otherwise unused) to be present.  On success, returns the task count
`num_tasks = (num_lines - 2) / 3`. -/
def parseHeader (lines : List String) : Except ErrorCode Nat :=
  let numTasks := (lines.length - 2) / 3
  if !lineCountOk lines.length then .error .fileParseError
  else
    match lines with
    | [] => .error .fileParseError
    | schedulabilityLine :: rest =>
      match parseUnsigned schedulabilityLine with
      | none => .error .fileParseError
      | some schedulability =>
        if 2 ≤ schedulability then .error .unschedulableError
        else
          match rest with
          | [] => .error .fileParseError
          | _ :: _ => .ok numTasks

/-- Observable outcome of one launcher run: the exit code, the participant
count passed to `init_single_use_barrier` (`none` when the call was never
reached), the argument vectors of the task processes created, and whether a
`kill(0, SIGTERM)` group broadcast was issued. -/
structure LaunchResult where
  exitCode : ErrorCode
  barrierCall : Option Nat
  launched : List (List String)
  broadcast : Bool
deriving DecidableEq, Repr

/-- Lines 166-330 of `main`: call `init_single_use_barrier` with the task
count (failure is fatal, no broadcast, nothing launched), then run the launch
loop over the per-task lines; a loop failure exits with that failure's code,
otherwise the launcher reaps its children and returns success. -/
def launchPhase (barrierOk : Bool) (fork : Nat → ForkOutcome) (numTasks : Nat)
    (taskLines : List String) : LaunchResult :=
  if !barrierOk then ⟨.barrierInitError, some numTasks, [], false⟩
  else
    let r := launchLoop fork 1 numTasks taskLines
    match r.err with
    | some e => ⟨taskErrorCode e, some numTasks, r.launched, r.broadcast⟩
    | none => ⟨.success, some numTasks, r.launched, r.broadcast⟩

/-- The launcher from the point the schedule file is open (line 109 to the
end of `main`): header phase, then barrier plus launch loop.  Header failures
exit without any barrier call, task creation, or broadcast. -/
def runLauncher (barrierOk : Bool) (fork : Nat → ForkOutcome)
    (lines : List String) : LaunchResult :=
  match parseHeader lines with
  | .error e => ⟨e, none, [], false⟩
  | .ok numTasks => launchPhase barrierOk fork numTasks (lines.drop 2)

/-- Outcome of the freshness check at lines 56-98. -/
inductive FreshnessOutcome
  | fileOpenErr
  | invokeScheduler
  | proceed
deriving DecidableEq, Repr

/-- The staleness condition at line 59:
`schedule_ret_val == -1 || (taskset_ret_val == 0 && taskset_stat.st_mtime > schedule_stat.st_mtime)`.
A `stat` result is `none` when the call failed (file missing), otherwise
`some mtime`. -/
def staleNeedsRegen (tasksetMtime scheduleMtime : Option Nat) : Bool :=
  match scheduleMtime with
  | none => true
  | some smt =>
    match tasksetMtime with
    | none => false
    | some tmt => smt < tmt

/-- Lines 56-98 of `main`: when the schedule file is missing or older than an
existing taskset file, either fail with the file-open error (taskset also
missing) or fork/exec the external scheduler script and block until it exits;
otherwise proceed directly. -/
def freshnessCheck (tasksetMtime scheduleMtime : Option Nat) : FreshnessOutcome :=
  if staleNeedsRegen tasksetMtime scheduleMtime then
    if tasksetMtime.isNone then .fileOpenErr else .invokeScheduler
  else .proceed

/-- End-to-end run of `main` after argument handling: freshness check (the
external scheduler, when invoked, runs synchronously; `schedulerExit` is its
exit status, which the code never reads — the wait loop at line 97 discards
statuses), then open the schedule file (`scheduleContent = none` means the
open fails) and run the launcher on its lines. -/
def runSystem (tasksetMtime scheduleMtime : Option Nat) (_schedulerExit : Int)
    (scheduleContent : Option (List String)) (barrierOk : Bool)
    (fork : Nat → ForkOutcome) : LaunchResult :=
  match freshnessCheck tasksetMtime scheduleMtime with
  | .fileOpenErr => ⟨.fileOpenError, none, [], false⟩
  | _ =>
    match scheduleContent with
    | none => ⟨.fileOpenError, none, [], false⟩
    | some lines => runLauncher barrierOk fork lines

/-- Number of non-empty lines, as used by the specification's claimed
invariant (the code itself counts every line, empty or not). -/
def countNonEmpty (lines : List String) : Nat :=
  (lines.filter (fun l => l ≠ "")).length

/-! ## Helper lemmas -/

/-- When the command line has a first token, the partition line exactly 3
tokens and the timing line exactly 11, the projector succeeds and produces
the argument vector verbatim from the tokens. -/
theorem projectTask_counts (cmd timing partition prog : String)
    (args pt tt : List String)
    (hc : tokenize cmd = prog :: args) (hp : tokenize partition = pt)
    (hp3 : pt.length = 3) (ht : tokenize timing = tt) (ht11 : tt.length = 11) :
    projectTask cmd timing partition =
      .ok (prog :: pt ++ tt.drop num_skipped_timing_params
            ++ [barrier_name, prog] ++ args) := by
  unfold projectTask
  rw [hc]
  simp [hp, ht, hp3, ht11, num_partition_params, num_timing_params]

/-- The projection step never produces the missing-lines, fork, or exec
failures: those arise elsewhere in the loop body. -/
theorem projectTask_error_cases (cmd timing partition : String) (e : TaskError)
    (h : projectTask cmd timing partition = .error e) :
    e ≠ .missingLines ∧ e ≠ .forkFailed ∧ e ≠ .execFailed := by
  unfold projectTask at h
  rcases htc : tokenize cmd with _ | ⟨p, args⟩ <;> rw [htc] at h
  · simp only [Except.error.injEq] at h
    subst h
    simp
  · simp only at h
    repeat' split at h
    all_goals (first
      | (simp only [Except.error.injEq] at h; subst h; simp)
      | simp at h)

/-- Every early exit of the launch loop is preceded by the group broadcast. -/
theorem launchLoop_err_broadcast (fork : Nat → ForkOutcome) :
    ∀ (n t : Nat) (ls : List String) (e : TaskError),
      (launchLoop fork t n ls).err = some e →
      (launchLoop fork t n ls).broadcast = true := by
  intro n
  induction n with
  | zero => intro t ls e h; simp [launchLoop] at h
  | succ n ih =>
    intro t ls e h
    rcases ls with _ | ⟨cmd, _ | ⟨timing, _ | ⟨partition, rest⟩⟩⟩
    · simp [launchLoop]
    · simp [launchLoop]
    · simp [launchLoop]
    · simp only [launchLoop] at h ⊢
      revert h
      cases hpj : projectTask cmd timing partition with
      | error e2 => intro h; rfl
      | ok argv =>
        cases hf : fork t with
        | forkFail => intro h; rfl
        | execFail => intro h; rfl
        | parentOk => intro h; exact ih (t + 1) rest e h

/-- When exactly `3 * n` lines remain, `n` loop iterations never hit the
missing-lines branch. -/
theorem launchLoop_no_missingLines (fork : Nat → ForkOutcome) :
    ∀ (n t : Nat) (ls : List String), ls.length = 3 * n →
      (launchLoop fork t n ls).err ≠ some .missingLines := by
  intro n
  induction n with
  | zero => intro t ls _; simp [launchLoop]
  | succ n ih =>
    intro t ls hlen
    rcases ls with _ | ⟨cmd, _ | ⟨timing, _ | ⟨partition, rest⟩⟩⟩
    · simp at hlen
    · simp at hlen; omega
    · simp at hlen; omega
    · have hr : rest.length = 3 * n := by simp at hlen; omega
      simp only [launchLoop]
      cases hpj : projectTask cmd timing partition with
      | error e2 =>
        have hcases := projectTask_error_cases cmd timing partition e2 hpj
        simp [hcases.1]
      | ok argv =>
        cases hf : fork t with
        | forkFail => simp
        | execFail => simp
        | parentOk =>
          simp only []
          exact ih (t + 1) rest hr

/-- A successful header phase implies the line-count check passed and the
returned task count is `(num_lines - 2) / 3`. -/
theorem parseHeader_ok (lines : List String) (n : Nat)
    (h : parseHeader lines = .ok n) :
    lineCountOk lines.length = true ∧ n = (lines.length - 2) / 3 := by
  unfold parseHeader at h
  repeat' split at h
  all_goals simp_all

/-- Unfolding of the line-count check. -/
theorem lineCountOk_spec (m : Nat) (h : lineCountOk m = true) :
    2 ≤ m ∧ (m - 2) % 3 = 0 := by
  simpa [lineCountOk] using h

/-- Both branches of the barrier phase record the participant count passed to
`init_single_use_barrier`. -/
theorem launchPhase_barrierCall (bk : Bool) (fork : Nat → ForkOutcome)
    (numTasks : Nat) (taskLines : List String) :
    (launchPhase bk fork numTasks taskLines).barrierCall = some numTasks := by
  unfold launchPhase
  split
  · rfl
  · cases h : (launchLoop fork 1 numTasks taskLines).err <;> simp [h]

/-! ## Claims -/

/-- Claim C1: for the concrete one-task schedule file the launcher execs
`workerA` with exactly the ordered argument vector
`[workerA, part1, part2, part3, 1..7, RT_GOMP_CLUSTERING_BARRIER, workerA, -x]`;
in general, for every well-formed TaskRecord (command line with a first
token, exactly 3 partition tokens, exactly 11 timing tokens) the assembled
vector is the program path, the 3 partition tokens in order, timing tokens 5
through 11 in order, the barrier name, the program path again, then the
remaining command-line tokens in original order. -/
theorem claim_C1_argument_projection (cmd timing partition prog : String)
    (args pt tt : List String)
    (hc : tokenize cmd = prog :: args) (hp : tokenize partition = pt)
    (hp3 : pt.length = 3) (ht : tokenize timing = tt) (ht11 : tt.length = 11) :
    projectTask cmd timing partition =
      .ok (prog :: pt ++ tt.drop 4 ++ [barrier_name, prog] ++ args) ∧
    runLauncher true (fun _ => .parentOk)
      ["0", "0-3", "workerA -x", "0 0 0 0 1 2 3 4 5 6 7", "part1 part2 part3"] =
    ⟨.success, some 1,
      [["workerA", "part1", "part2", "part3", "1", "2", "3", "4", "5", "6", "7",
        "RT_GOMP_CLUSTERING_BARRIER", "workerA", "-x"]], false⟩ :=
  ⟨projectTask_counts cmd timing partition prog args pt tt hc hp hp3 ht ht11, rfl⟩

/-- Witness for C1 at the concrete scenario input. -/
theorem claim_C1_witness :
    projectTask "workerA -x" "0 0 0 0 1 2 3 4 5 6 7" "part1 part2 part3" =
      .ok ("workerA" :: ["part1", "part2", "part3"]
            ++ ["0", "0", "0", "0", "1", "2", "3", "4", "5", "6", "7"].drop 4
            ++ [barrier_name, "workerA"] ++ ["-x"]) ∧
    runLauncher true (fun _ => .parentOk)
      ["0", "0-3", "workerA -x", "0 0 0 0 1 2 3 4 5 6 7", "part1 part2 part3"] =
    ⟨.success, some 1,
      [["workerA", "part1", "part2", "part3", "1", "2", "3", "4", "5", "6", "7",
        "RT_GOMP_CLUSTERING_BARRIER", "workerA", "-x"]], false⟩ :=
  claim_C1_argument_projection "workerA -x" "0 0 0 0 1 2 3 4 5 6 7"
    "part1 part2 part3" "workerA" ["-x"] ["part1", "part2", "part3"]
    ["0", "0", "0", "0", "1", "2", "3", "4", "5", "6", "7"]
    (by rfl) (by rfl) (by rfl) (by rfl) (by rfl)

/-- Claim C2 counterexample: the one-line file `5` has a first line that
parses as the unsigned integer 5 (neither 0 nor 1), yet the launcher exits
with the parse error code, not the unschedulable error code, because the
line-count check at lines 109-117 runs first and rejects the file. -/
theorem claim_C2_counterexample :
    parseUnsigned "5" = some 5 ∧
    2 ≤ 5 ∧
    (runLauncher true (fun _ => .parentOk) ["5"]).exitCode =
      ErrorCode.fileParseError ∧
    ErrorCode.fileParseError ≠ ErrorCode.unschedulableError :=
  ⟨by rfl, by omega, by rfl, by simp⟩

/-- Claim C2 (amended): for every schedule file that passes the line-count
check and whose first line parses as an unsigned integer, value 0 or 1
proceeds past the schedulability gate to the launch phase, while any other
value exits with the unschedulable error code before the barrier call and
before any task process is created; when the first line does not parse, the
launcher instead exits with the parse error code. -/
theorem claim_C2_schedulability_gate (bk : Bool) (fork : Nat → ForkOutcome)
    (lines : List String) (hcount : lineCountOk lines.length = true) :
    (∀ v, parseUnsigned (lines.headD "") = some v →
      (2 ≤ v → runLauncher bk fork lines =
        ⟨.unschedulableError, none, [], false⟩) ∧
      (v < 2 → parseHeader lines = .ok ((lines.length - 2) / 3))) ∧
    (parseUnsigned (lines.headD "") = none →
      runLauncher bk fork lines = ⟨.fileParseError, none, [], false⟩) := by
  rcases lines with _ | ⟨a, _ | ⟨b, rest⟩⟩
  · simp [lineCountOk] at hcount
  · simp [lineCountOk] at hcount
  · simp only [List.headD_cons]
    simp only [List.length_cons] at hcount
    constructor
    · intro v hv
      constructor
      · intro h2
        simp [runLauncher, parseHeader, hcount, hv, h2]
      · intro h2
        have h3 : ¬ 2 ≤ v := by omega
        simp [parseHeader, hcount, hv, h3]
    · intro hv
      simp [runLauncher, parseHeader, hcount, hv]

/-- Witness for the amended C2 at the file `["2", "x"]`: verdict 2 aborts as
unschedulable with no barrier call, no task created, no broadcast. -/
theorem claim_C2_witness :
    runLauncher true (fun _ => .parentOk) ["2", "x"] =
      ⟨.unschedulableError, none, [], false⟩ :=
  ((claim_C2_schedulability_gate true (fun _ => .parentOk) ["2", "x"]
      (by decide)).1 2 (by rfl)).1 (by omega)

/-- Claim C3: every failure inside the per-task launch loop — missing lines,
missing program name, wrong partition or timing token counts, fork failure,
or exec failure — broadcasts SIGTERM to the whole process group before the
corresponding error code is returned, so every already-created task receives
the termination signal and no subset of tasks is left running. -/
theorem claim_C3_abort_broadcast (fork : Nat → ForkOutcome) (n : Nat)
    (taskLines : List String) (e : TaskError)
    (h : (launchLoop fork 1 n taskLines).err = some e) :
    (launchLoop fork 1 n taskLines).broadcast = true ∧
    (launchLoop fork 1 n taskLines).signaled =
      (launchLoop fork 1 n taskLines).launched ∧
    (launchPhase true fork n taskLines).exitCode = taskErrorCode e := by
  have hb := launchLoop_err_broadcast fork n 1 taskLines e h
  refine ⟨hb, by simp [LoopResult.signaled, hb], ?_⟩
  simp [launchPhase, h]

/-- Witness for C3: fork fails on the second of two tasks; the broadcast
happens and the one already-created task is in the signaled set. -/
theorem claim_C3_witness :
    (launchLoop (fun t => if t = 2 then .forkFail else .parentOk) 1 2
        ["w", "0 0 0 0 1 2 3 4 5 6 7", "a b c",
         "v", "0 0 0 0 1 2 3 4 5 6 7", "d e f"]).broadcast = true ∧
    (launchLoop (fun t => if t = 2 then .forkFail else .parentOk) 1 2
        ["w", "0 0 0 0 1 2 3 4 5 6 7", "a b c",
         "v", "0 0 0 0 1 2 3 4 5 6 7", "d e f"]).signaled =
      (launchLoop (fun t => if t = 2 then .forkFail else .parentOk) 1 2
        ["w", "0 0 0 0 1 2 3 4 5 6 7", "a b c",
         "v", "0 0 0 0 1 2 3 4 5 6 7", "d e f"]).launched ∧
    (launchPhase true (fun t => if t = 2 then .forkFail else .parentOk) 2
        ["w", "0 0 0 0 1 2 3 4 5 6 7", "a b c",
         "v", "0 0 0 0 1 2 3 4 5 6 7", "d e f"]).exitCode =
      taskErrorCode .forkFailed :=
  claim_C3_abort_broadcast (fun t => if t = 2 then .forkFail else .parentOk) 2
    ["w", "0 0 0 0 1 2 3 4 5 6 7", "a b c",
     "v", "0 0 0 0 1 2 3 4 5 6 7", "d e f"] .forkFailed (by rfl)

/-- Claim C4: the parser accepts a schedule file only if the line count is at
least 2 with `(total - 2)` divisible by 3, exiting with the parse error code
otherwise; when accepted, the task count is `(total - 2) / 3` and the barrier
is created with exactly that participant count. -/
theorem claim_C4_line_count_and_barrier (bk : Bool) (fork : Nat → ForkOutcome)
    (lines : List String) :
    (lineCountOk lines.length = false →
      runLauncher bk fork lines = ⟨.fileParseError, none, [], false⟩) ∧
    (∀ n, parseHeader lines = .ok n →
      n = (lines.length - 2) / 3 ∧
      lineCountOk lines.length = true ∧
      (runLauncher bk fork lines).barrierCall = some n) := by
  constructor
  · intro hfalse
    simp [runLauncher, parseHeader, hfalse]
  · intro n h
    obtain ⟨hc, hn⟩ := parseHeader_ok lines n h
    refine ⟨hn, hc, ?_⟩
    unfold runLauncher
    rw [h]
    exact launchPhase_barrierCall bk fork n (lines.drop 2)

/-- Witness for C4: a three-line file has `(3 - 2) % 3 = 1`, so it is
rejected with the parse error code. -/
theorem claim_C4_witness :
    runLauncher true (fun _ => .parentOk) ["a", "b", "c"] =
      ⟨.fileParseError, none, [], false⟩ :=
  (claim_C4_line_count_and_barrier true (fun _ => .parentOk)
    ["a", "b", "c"]).1 (by decide)

/-- Claim C5: for every task the projector accepts the partition line exactly
when it tokenizes to 3 tokens — fewer or more yield parse errors with
distinct messages — and accepts the timing line exactly when it tokenizes to
11 tokens, of which the first 4 are discarded and the remaining 7 passed
through; 10 or 12 timing tokens (any count other than 11) yield a parse
error.  All four token-count failures return the file-parse exit code. -/
theorem claim_C5_token_count_gate (cmd timing partition prog : String)
    (args : List String) (hc : tokenize cmd = prog :: args) :
    ((tokenize partition).length < 3 →
      projectTask cmd timing partition = .error .tooFewPartitionParams) ∧
    (3 < (tokenize partition).length →
      projectTask cmd timing partition = .error .tooManyPartitionParams) ∧
    TaskError.tooFewPartitionParams ≠ TaskError.tooManyPartitionParams ∧
    ((tokenize partition).length = 3 →
      ((tokenize timing).length < 11 →
        projectTask cmd timing partition = .error .tooFewTimingParams) ∧
      (11 < (tokenize timing).length →
        projectTask cmd timing partition = .error .tooManyTimingParams) ∧
      ((tokenize timing).length = 11 →
        projectTask cmd timing partition =
          .ok (prog :: tokenize partition ++ (tokenize timing).drop 4
                ++ [barrier_name, prog] ++ args))) ∧
    taskErrorCode .tooFewPartitionParams = .fileParseError ∧
    taskErrorCode .tooManyPartitionParams = .fileParseError ∧
    taskErrorCode .tooFewTimingParams = .fileParseError ∧
    taskErrorCode .tooManyTimingParams = .fileParseError := by
  refine ⟨?_, ?_, by simp, ?_, by simp [taskErrorCode], by simp [taskErrorCode],
    by simp [taskErrorCode], by simp [taskErrorCode]⟩
  · intro hlt
    unfold projectTask
    rw [hc]
    simp [num_partition_params, hlt]
  · intro hgt
    have h1 : ¬ (tokenize partition).length < 3 := by omega
    unfold projectTask
    rw [hc]
    simp [num_partition_params, h1, hgt]
  · intro hp3
    have h1 : ¬ (tokenize partition).length < 3 := by omega
    have h2 : ¬ 3 < (tokenize partition).length := by omega
    refine ⟨?_, ?_, ?_⟩
    · intro hlt
      unfold projectTask
      rw [hc]
      simp [num_partition_params, num_timing_params, h1, h2, hlt]
    · intro hgt
      have h3 : ¬ (tokenize timing).length < 11 := by omega
      unfold projectTask
      rw [hc]
      simp [num_partition_params, num_timing_params, h1, h2, h3, hgt]
    · intro ht11
      exact projectTask_counts cmd timing partition prog args
        (tokenize partition) (tokenize timing) hc rfl hp3 rfl ht11

/-- Witness for C5: a 2-token partition line is rejected with the too-few
message; a 12-token timing line is rejected with the too-many message. -/
theorem claim_C5_witness :
    projectTask "w" "0 0 0 0 1 2 3 4 5 6 7" "a b" =
      .error .tooFewPartitionParams ∧
    projectTask "w" "0 0 0 0 1 2 3 4 5 6 7 8" "a b c" =
      .error .tooManyTimingParams :=
  ⟨(claim_C5_token_count_gate "w" "0 0 0 0 1 2 3 4 5 6 7" "a b" "w" []
      (by rfl)).1 (by decide),
   (((claim_C5_token_count_gate "w" "0 0 0 0 1 2 3 4 5 6 7 8" "a b c" "w" []
      (by rfl)).2.2.2.1 (by decide)).2.1 (by decide))⟩

/-- Claim C6: the external scheduling step is invoked exactly when the
derived schedule file is missing or the taskset source exists with a strictly
newer modification time — except that when both files are missing the
launcher exits with the file-open error code before any schedule content is
read; and the launcher's behavior never depends on the external step's exit
status (it only blocks until the step finishes). -/
theorem claim_C6_freshness (ts ss : Option Nat) :
    (freshnessCheck ts ss = .invokeScheduler ↔
      ts ≠ none ∧ (ss = none ∨ ∃ a b, ts = some a ∧ ss = some b ∧ b < a)) ∧
    (∀ (e1 e2 : Int) (c : Option (List String)) (bk : Bool)
        (fork : Nat → ForkOutcome),
      runSystem ts ss e1 c bk fork = runSystem ts ss e2 c bk fork) ∧
    (ts = none → ss = none →
      ∀ (e : Int) (c : Option (List String)) (bk : Bool)
          (fork : Nat → ForkOutcome),
        runSystem ts ss e c bk fork = ⟨.fileOpenError, none, [], false⟩) := by
  refine ⟨?_, ?_, ?_⟩
  · cases ts with
    | none =>
      cases ss with
      | none => simp [freshnessCheck, staleNeedsRegen]
      | some sm => simp [freshnessCheck, staleNeedsRegen]
    | some tm =>
      cases ss with
      | none => simp [freshnessCheck, staleNeedsRegen]
      | some sm =>
        by_cases h : sm < tm <;> simp [freshnessCheck, staleNeedsRegen, h]
  · intro e1 e2 c bk fork
    rfl
  · intro h1 h2 e c bk fork
    subst h1
    subst h2
    rfl

/-- Witness for C6: both files missing exits with the file-open error, even
when a readable schedule with valid content is supplied to the later phase. -/
theorem claim_C6_witness :
    runSystem none none 0 (some ["0", "0-3"]) true (fun _ => .parentOk) =
      ⟨.fileOpenError, none, [], false⟩ :=
  (claim_C6_freshness none none).2.2 rfl rfl 0 (some ["0", "0-3"]) true
    (fun _ => .parentOk)

/-- Claim C7 counterexample: the launcher accepts (and runs to success) a
5-line file whose core-range line is empty; its task count is 1, but
`1 * 3 + 2 = 5` is the total line count, not the non-empty line count 4 —
empty lines do count toward the code's line-count invariant. -/
theorem claim_C7_counterexample :
    (runLauncher true (fun _ => .parentOk)
        ["0", "", "w", "0 0 0 0 1 2 3 4 5 6 7", "a b c"]).exitCode =
      ErrorCode.success ∧
    (runLauncher true (fun _ => .parentOk)
        ["0", "", "w", "0 0 0 0 1 2 3 4 5 6 7", "a b c"]).barrierCall =
      some 1 ∧
    (runLauncher true (fun _ => .parentOk)
        ["0", "", "w", "0 0 0 0 1 2 3 4 5 6 7", "a b c"]).launched.length = 1 ∧
    1 * 3 + 2 ≠ countNonEmpty ["0", "", "w", "0 0 0 0 1 2 3 4 5 6 7", "a b c"] :=
  ⟨by rfl, by rfl, by rfl, by decide⟩

/-- Claim C7 (amended): for every schedule file the launcher accepts, the
number of task records N satisfies `N * 3 + 2 = total number of lines in the
file` — counting every line, empty ones included. -/
theorem claim_C7_line_invariant (lines : List String) (n : Nat)
    (h : parseHeader lines = .ok n) : n * 3 + 2 = lines.length := by
  obtain ⟨hc, hn⟩ := parseHeader_ok lines n h
  obtain ⟨h2, h3⟩ := lineCountOk_spec lines.length hc
  omega

/-- Witness for the amended C7 on the concrete 5-line schedule. -/
theorem claim_C7_witness :
    1 * 3 + 2 =
      (["0", "0-3", "workerA -x", "0 0 0 0 1 2 3 4 5 6 7",
        "part1 part2 part3"] : List String).length :=
  claim_C7_line_invariant
    ["0", "0-3", "workerA -x", "0 0 0 0 1 2 3 4 5 6 7", "part1 part2 part3"]
    1 (by rfl)

/-- Claim C8: the content of line 2 (the core-range descriptor) never
influences the launcher's observable behavior — two schedule files identical
except for line 2 produce the same full result (exit code, barrier
participant count, every task's argument vector, broadcast flag) under every
oracle — and a file in which line 2 is absent exits with the parse error
code. -/
theorem claim_C8_core_range_noninterference (bk : Bool)
    (fork : Nat → ForkOutcome) (l0 x y : String) (rest : List String) :
    runLauncher bk fork (l0 :: x :: rest) = runLauncher bk fork (l0 :: y :: rest) ∧
    ∀ z : String, (runLauncher bk fork [z]).exitCode = ErrorCode.fileParseError := by
  constructor
  · cases hv : parseUnsigned l0 with
    | none => simp [runLauncher, parseHeader, hv]
    | some v =>
      by_cases h2 : 2 ≤ v <;>
        simp [runLauncher, parseHeader, hv, h2]
  · intro z
    rfl

/-- Claim C9: every schedule file that passes the initial line-count check
supplies exactly three lines per task after the two header lines, so the
mid-loop missing-line parse error (the "Provide three lines for each task"
branch) is unreachable, whichever iteration index the loop starts from. -/
theorem claim_C9_missing_lines_unreachable (fork : Nat → ForkOutcome) (t : Nat)
    (lines : List String) (hcount : lineCountOk lines.length = true) :
    (launchLoop fork t ((lines.length - 2) / 3) (lines.drop 2)).err ≠
      some TaskError.missingLines := by
  apply launchLoop_no_missingLines
  obtain ⟨h2, h3⟩ := lineCountOk_spec lines.length hcount
  simp only [List.length_drop]
  omega

/-- Witness for C9 at the concrete 5-line schedule with a failing fork: the
loop fails, but not with the missing-lines error. -/
theorem claim_C9_witness :
    (launchLoop (fun _ => .forkFail) 1
        (((["0", "0-3", "workerA -x", "0 0 0 0 1 2 3 4 5 6 7",
            "part1 part2 part3"] : List String).length - 2) / 3)
        ((["0", "0-3", "workerA -x", "0 0 0 0 1 2 3 4 5 6 7",
           "part1 part2 part3"] : List String).drop 2)).err ≠
      some TaskError.missingLines :=
  claim_C9_missing_lines_unreachable (fun _ => .forkFail) 1
    ["0", "0-3", "workerA -x", "0 0 0 0 1 2 3 4 5 6 7", "part1 part2 part3"]
    (by decide)

/-- Claim C10: the launcher performs no numeric validation of timing or
partition tokens — any whitespace-separated tokens, numeric or not, that meet
the counts of 3 partition and 11 timing tokens are accepted, and every token
is copied verbatim into the child's argument vector. -/
theorem claim_C10_no_numeric_validation (cmd timing partition prog : String)
    (args pt tt : List String)
    (hc : tokenize cmd = prog :: args) (hp : tokenize partition = pt)
    (hp3 : pt.length = 3) (ht : tokenize timing = tt) (ht11 : tt.length = 11) :
    ∃ argv, projectTask cmd timing partition = .ok argv ∧
      argv = prog :: pt ++ tt.drop 4 ++ [barrier_name, prog] ++ args :=
  ⟨prog :: pt ++ tt.drop 4 ++ [barrier_name, prog] ++ args,
   projectTask_counts cmd timing partition prog args pt tt hc hp hp3 ht ht11,
   rfl⟩

/-- Witness for C10: entirely non-numeric timing and partition tokens are
accepted and passed through verbatim. -/
theorem claim_C10_witness :
    ∃ argv, projectTask "prog" "aa bb cc dd ee ff gg hh ii jj kk" "xx yy zz" =
      .ok argv ∧
      argv = "prog" :: ["xx", "yy", "zz"]
        ++ (["aa", "bb", "cc", "dd", "ee", "ff", "gg", "hh", "ii", "jj",
             "kk"].drop 4)
        ++ [barrier_name, "prog"] ++ [] :=
  claim_C10_no_numeric_validation "prog" "aa bb cc dd ee ff gg hh ii jj kk"
    "xx yy zz" "prog" [] ["xx", "yy", "zz"]
    ["aa", "bb", "cc", "dd", "ee", "ff", "gg", "hh", "ii", "jj", "kk"]
    (by rfl) (by rfl) (by rfl) (by rfl) (by rfl)


